import Mathlib

/-!
Verification of velero's restartable object-store plugin proxy
(`pkg/plugin/clientmgmt/restartable_object_store.go`) together with the
once-only e2e test client (`test/e2e/util/k8s/common.go`) and a model of the
restartable-process supervisor's restart protocol described in the design
document.

Modelling conventions:
- Go `error` values are `GoError`; a Go `(T, error)` return is `Except GoError T`.
- A Go `map[string]string` may be `nil`; we model it as `Option` of an
  association list (`none` = nil map).  The only operation the proxy performs
  on its stored config is the `!= nil` test and passing it through, so the
  association-list representation is never inspected.
- The `RestartableProcess` interface (whose implementation is outside the
  proxy file) is an oracle: the behaviour it exhibits at the time of one call
  (`resetIfNeeded` result, `getByKindAndName` result).
- Each proxy method returns, besides its Go results, a trace of the calls it
  made on the process and on the dispensed client, so that "forwards the
  arguments unmodified", "never re-forwards", "never calls resetIfNeeded"
  are stated as facts about the trace.
-/

/-- Errors in Go are opaque values carrying a message. -/
inductive GoError : Type where
  | msg (s : String)
deriving DecidableEq, Repr

/-- The error produced by `errors.Errorf("already initialized")`. -/
def alreadyInitializedError : GoError := .msg "already initialized"

/-- A Go `map[string]string`, which may be `nil` (`none`). -/
abbrev GoMap := Option (List (String × String))

/-- Opaque handle standing for an `io.Reader` argument. -/
abbrev Reader := Nat

/-- Opaque handle standing for an `io.ReadCloser` result. -/
abbrev ReadCloser := Nat

/-- Opaque handle standing for a `context.Context` argument. -/
abbrev Ctx := Nat

/-- A `time.Duration` (an int64 in Go), passed through opaquely. -/
abbrev Duration := Int

/-- Registry key of a plugin: kind plus implementation name. -/
structure kindAndName where
  kind : String
  name : String
deriving DecidableEq, Repr

/-- The plugin kind constant `framework.PluginKindObjectStoreV2`. -/
def PluginKindObjectStoreV2 : String := "ObjectStoreV2"

/-- Behaviour of a dispensed `objectstorev2.ObjectStore` client: for every
method of the interface, the result the remote plugin would return for given
arguments.  `id` identifies the client in call traces. -/
structure ObjectStoreClient where
  id : Nat
  initRes : GoMap → Except GoError Unit
  putObjectRes : String → String → Reader → Except GoError Unit
  objectExistsRes : String → String → Except GoError Bool
  getObjectRes : String → String → Except GoError ReadCloser
  listCommonPrefixesRes : String → String → String → Except GoError (List String)
  listObjectsRes : String → String → Except GoError (List String)
  deleteObjectRes : String → String → Except GoError Unit
  createSignedURLRes : String → String → Duration → Except GoError String
  putObjectV2Res : Ctx → String → String → Reader → Except GoError Unit
  objectExistsV2Res : Ctx → String → String → Except GoError Bool
  getObjectV2Res : Ctx → String → String → Except GoError ReadCloser
  listCommonPrefixesV2Res : Ctx → String → String → String → Except GoError (List String)
  listObjectsV2Res : Ctx → String → String → Except GoError (List String)
  deleteObjectV2Res : Ctx → String → String → Except GoError Unit
  createSignedURLV2Res : Ctx → String → String → Duration → Except GoError String

/-- What `getByKindAndName` hands back: either a value that satisfies the
`objectstorev2.ObjectStore` type assertion, or a value of some other dynamic
type (whose Go type name is recorded, as `%T` would print it). -/
inductive Dispensed : Type where
  | objectStore (client : ObjectStoreClient)
  | other (typeName : String)

/-- Oracle for the `RestartableProcess` interface as observed during one proxy
method call: the outcome of `resetIfNeeded` and of registry lookups. -/
structure RestartableProcess where
  resetResult : Except GoError Unit
  getByKindAndName : kindAndName → Except GoError Dispensed

/-- One non-`Init` capability operation of the object store together with its
arguments, exactly the exported methods of `restartableObjectStore` other than
`Init`/`InitV2`. -/
inductive OpCall : Type where
  | putObject (bucket key : String) (body : Reader)
  | objectExists (bucket key : String)
  | getObject (bucket key : String)
  | listCommonPrefixes (bucket pfx delimiter : String)
  | listObjects (bucket pfx : String)
  | deleteObject (bucket key : String)
  | createSignedURL (bucket key : String) (ttl : Duration)
  | putObjectV2 (c : Ctx) (bucket key : String) (body : Reader)
  | objectExistsV2 (c : Ctx) (bucket key : String)
  | getObjectV2 (c : Ctx) (bucket key : String)
  | listCommonPrefixesV2 (c : Ctx) (bucket pfx delimiter : String)
  | listObjectsV2 (c : Ctx) (bucket pfx : String)
  | deleteObjectV2 (c : Ctx) (bucket key : String)
  | createSignedURLV2 (c : Ctx) (bucket key : String) (ttl : Duration)
deriving DecidableEq, Repr

/-- Payload of a call made on a dispensed client: either the `Init` of the
plugin contract, or one of the capability operations. -/
inductive CallPayload : Type where
  | initCall (cfg : GoMap)
  | opCall (o : OpCall)
deriving DecidableEq, Repr

/-- Observable interactions of the proxy with its collaborators. -/
inductive Event : Type where
  | resetIfNeeded
  | getByKindAndName (k : kindAndName)
  | call (delegateId : Nat) (payload : CallPayload)
deriving DecidableEq, Repr

/-- State of a `restartableObjectStore` proxy: its registry key and the stored
configuration (`none` until a config is stored by `Init`, mirroring the nil
map).  The shared plugin process is passed to each method as the oracle of its
behaviour at call time. -/
structure restartableObjectStore where
  key : kindAndName
  config : GoMap
deriving DecidableEq, Repr

/-- `newRestartableObjectStoreV2` builds the proxy for an implementation name;
its config starts as the nil map.  (Its registration with the shared process,
`addReinitializer`, is a supervisor-side effect outside this file's scope.) -/
def newRestartableObjectStoreV2 (name : String) : restartableObjectStore :=
  { key := { kind := PluginKindObjectStoreV2, name := name }, config := none }

/-- The private helper `init`: calls `Init` on the given object store client
with the given config. -/
def init (objectStore : ObjectStoreClient) (config : GoMap) :
    Except GoError Unit × List Event :=
  (objectStore.initRes config, [.call objectStore.id (.initCall config)])

/-- The Reinitializer capability `reinitialize`: type-asserts the re-dispensed
value and replays `init` with the stored config. -/
def reinitialize (r : restartableObjectStore) (dispensed : Dispensed) :
    Except GoError Unit × List Event :=
  match dispensed with
  | .objectStore client => init client r.config
  | .other t => (.error (.msg (t ++ " is not a ObjectStore!")), [])

/-- The private helper `getObjectStore`: registry lookup for the proxy's key
plus the type assertion.  It does not restart the plugin process. -/
def getObjectStore (r : restartableObjectStore) (p : RestartableProcess) :
    Except GoError ObjectStoreClient × List Event :=
  match p.getByKindAndName r.key with
  | .error e => (.error e, [.getByKindAndName r.key])
  | .ok (.objectStore client) => (.ok client, [.getByKindAndName r.key])
  | .ok (.other t) =>
      (.error (.msg (t ++ " is not a ObjectStore!")), [.getByKindAndName r.key])

/-- The private helper `getDelegate`: restarts the plugin process if needed
(`resetIfNeeded`), then `getObjectStore`. -/
def getDelegate (r : restartableObjectStore) (p : RestartableProcess) :
    Except GoError ObjectStoreClient × List Event :=
  match p.resetResult with
  | .error e => (.error e, [.resetIfNeeded])
  | .ok _ =>
      let t := getObjectStore r p
      (t.1, .resetIfNeeded :: t.2)

/-- `Init`: rejected with `already initialized` when a non-nil config is
stored; otherwise looks the client up via `getObjectStore` (never
`getDelegate`), stores the config, and forwards `init(config)`.  Returns the
Go result, the proxy state after the call, and the trace. -/
def Init (r : restartableObjectStore) (p : RestartableProcess) (config : GoMap) :
    Except GoError Unit × restartableObjectStore × List Event :=
  match r.config with
  | some _ => (.error alreadyInitializedError, r, [])
  | none =>
      match getObjectStore r p with
      | (.error e, tr) => (.error e, r, tr)
      | (.ok client, tr) =>
          let r2 : restartableObjectStore := { r with config := config }
          let t := init client config
          (t.1, r2, tr ++ t.2)

/-- `InitV2` delegates to `Init` with the same config, dropping the context. -/
def InitV2 (r : restartableObjectStore) (p : RestartableProcess) (_ctx : Ctx)
    (config : GoMap) : Except GoError Unit × restartableObjectStore × List Event :=
  Init r p config

/-- `PutObject` restarts the plugin's process if needed, then delegates. -/
def PutObject (r : restartableObjectStore) (p : RestartableProcess)
    (bucket key : String) (body : Reader) : Except GoError Unit × List Event :=
  match getDelegate r p with
  | (.error e, tr) => (.error e, tr)
  | (.ok d, tr) =>
      (d.putObjectRes bucket key body, tr ++ [.call d.id (.opCall (.putObject bucket key body))])

/-- `ObjectExists` restarts the plugin's process if needed, then delegates. -/
def ObjectExists (r : restartableObjectStore) (p : RestartableProcess)
    (bucket key : String) : Except GoError Bool × List Event :=
  match getDelegate r p with
  | (.error e, tr) => (.error e, tr)
  | (.ok d, tr) =>
      (d.objectExistsRes bucket key, tr ++ [.call d.id (.opCall (.objectExists bucket key))])

/-- `GetObject` restarts the plugin's process if needed, then delegates. -/
def GetObject (r : restartableObjectStore) (p : RestartableProcess)
    (bucket key : String) : Except GoError ReadCloser × List Event :=
  match getDelegate r p with
  | (.error e, tr) => (.error e, tr)
  | (.ok d, tr) =>
      (d.getObjectRes bucket key, tr ++ [.call d.id (.opCall (.getObject bucket key))])

/-- `ListCommonPrefixes` restarts the plugin's process if needed, then delegates. -/
def ListCommonPrefixes (r : restartableObjectStore) (p : RestartableProcess)
    (bucket pfx delimiter : String) : Except GoError (List String) × List Event :=
  match getDelegate r p with
  | (.error e, tr) => (.error e, tr)
  | (.ok d, tr) =>
      (d.listCommonPrefixesRes bucket pfx delimiter,
        tr ++ [.call d.id (.opCall (.listCommonPrefixes bucket pfx delimiter))])

/-- `ListObjects` restarts the plugin's process if needed, then delegates. -/
def ListObjects (r : restartableObjectStore) (p : RestartableProcess)
    (bucket pfx : String) : Except GoError (List String) × List Event :=
  match getDelegate r p with
  | (.error e, tr) => (.error e, tr)
  | (.ok d, tr) =>
      (d.listObjectsRes bucket pfx, tr ++ [.call d.id (.opCall (.listObjects bucket pfx))])

/-- `DeleteObject` restarts the plugin's process if needed, then delegates. -/
def DeleteObject (r : restartableObjectStore) (p : RestartableProcess)
    (bucket key : String) : Except GoError Unit × List Event :=
  match getDelegate r p with
  | (.error e, tr) => (.error e, tr)
  | (.ok d, tr) =>
      (d.deleteObjectRes bucket key, tr ++ [.call d.id (.opCall (.deleteObject bucket key))])

/-- `CreateSignedURL` restarts the plugin's process if needed, then delegates. -/
def CreateSignedURL (r : restartableObjectStore) (p : RestartableProcess)
    (bucket key : String) (ttl : Duration) : Except GoError String × List Event :=
  match getDelegate r p with
  | (.error e, tr) => (.error e, tr)
  | (.ok d, tr) =>
      (d.createSignedURLRes bucket key ttl,
        tr ++ [.call d.id (.opCall (.createSignedURL bucket key ttl))])

/-- `PutObjectV2` restarts the plugin's process if needed, then delegates. -/
def PutObjectV2 (r : restartableObjectStore) (p : RestartableProcess) (c : Ctx)
    (bucket key : String) (body : Reader) : Except GoError Unit × List Event :=
  match getDelegate r p with
  | (.error e, tr) => (.error e, tr)
  | (.ok d, tr) =>
      (d.putObjectV2Res c bucket key body,
        tr ++ [.call d.id (.opCall (.putObjectV2 c bucket key body))])

/-- `ObjectExistsV2` restarts the plugin's process if needed, then delegates. -/
def ObjectExistsV2 (r : restartableObjectStore) (p : RestartableProcess) (c : Ctx)
    (bucket key : String) : Except GoError Bool × List Event :=
  match getDelegate r p with
  | (.error e, tr) => (.error e, tr)
  | (.ok d, tr) =>
      (d.objectExistsV2Res c bucket key,
        tr ++ [.call d.id (.opCall (.objectExistsV2 c bucket key))])

/-- `GetObjectV2` restarts the plugin's process if needed, then delegates. -/
def GetObjectV2 (r : restartableObjectStore) (p : RestartableProcess) (c : Ctx)
    (bucket key : String) : Except GoError ReadCloser × List Event :=
  match getDelegate r p with
  | (.error e, tr) => (.error e, tr)
  | (.ok d, tr) =>
      (d.getObjectV2Res c bucket key,
        tr ++ [.call d.id (.opCall (.getObjectV2 c bucket key))])

/-- `ListCommonPrefixesV2` restarts the plugin's process if needed, then delegates. -/
def ListCommonPrefixesV2 (r : restartableObjectStore) (p : RestartableProcess) (c : Ctx)
    (bucket pfx delimiter : String) : Except GoError (List String) × List Event :=
  match getDelegate r p with
  | (.error e, tr) => (.error e, tr)
  | (.ok d, tr) =>
      (d.listCommonPrefixesV2Res c bucket pfx delimiter,
        tr ++ [.call d.id (.opCall (.listCommonPrefixesV2 c bucket pfx delimiter))])

/-- `ListObjectsV2` restarts the plugin's process if needed, then delegates. -/
def ListObjectsV2 (r : restartableObjectStore) (p : RestartableProcess) (c : Ctx)
    (bucket pfx : String) : Except GoError (List String) × List Event :=
  match getDelegate r p with
  | (.error e, tr) => (.error e, tr)
  | (.ok d, tr) =>
      (d.listObjectsV2Res c bucket pfx,
        tr ++ [.call d.id (.opCall (.listObjectsV2 c bucket pfx))])

/-- `DeleteObjectV2` restarts the plugin's process if needed, then delegates. -/
def DeleteObjectV2 (r : restartableObjectStore) (p : RestartableProcess) (c : Ctx)
    (bucket key : String) : Except GoError Unit × List Event :=
  match getDelegate r p with
  | (.error e, tr) => (.error e, tr)
  | (.ok d, tr) =>
      (d.deleteObjectV2Res c bucket key,
        tr ++ [.call d.id (.opCall (.deleteObjectV2 c bucket key))])

/-- `CreateSignedURLV2` restarts the plugin's process if needed, then delegates. -/
def CreateSignedURLV2 (r : restartableObjectStore) (p : RestartableProcess) (c : Ctx)
    (bucket key : String) (ttl : Duration) : Except GoError String × List Event :=
  match getDelegate r p with
  | (.error e, tr) => (.error e, tr)
  | (.ok d, tr) =>
      (d.createSignedURLV2Res c bucket key ttl,
        tr ++ [.call d.id (.opCall (.createSignedURLV2 c bucket key ttl))])

/-- Results of the capability operations, one constructor per Go result type. -/
inductive OpResult : Type where
  | unitRes (v : Except GoError Unit)
  | boolRes (v : Except GoError Bool)
  | readCloserRes (v : Except GoError ReadCloser)
  | stringListRes (v : Except GoError (List String))
  | stringRes (v : Except GoError String)

/-- Dispatcher over the fourteen non-`Init` operations of the proxy. -/
def execOp (r : restartableObjectStore) (p : RestartableProcess) :
    OpCall → OpResult × List Event
  | .putObject b k body => let t := PutObject r p b k body; (.unitRes t.1, t.2)
  | .objectExists b k => let t := ObjectExists r p b k; (.boolRes t.1, t.2)
  | .getObject b k => let t := GetObject r p b k; (.readCloserRes t.1, t.2)
  | .listCommonPrefixes b pfx d =>
      let t := ListCommonPrefixes r p b pfx d; (.stringListRes t.1, t.2)
  | .listObjects b pfx => let t := ListObjects r p b pfx; (.stringListRes t.1, t.2)
  | .deleteObject b k => let t := DeleteObject r p b k; (.unitRes t.1, t.2)
  | .createSignedURL b k ttl =>
      let t := CreateSignedURL r p b k ttl; (.stringRes t.1, t.2)
  | .putObjectV2 c b k body => let t := PutObjectV2 r p c b k body; (.unitRes t.1, t.2)
  | .objectExistsV2 c b k => let t := ObjectExistsV2 r p c b k; (.boolRes t.1, t.2)
  | .getObjectV2 c b k => let t := GetObjectV2 r p c b k; (.readCloserRes t.1, t.2)
  | .listCommonPrefixesV2 c b pfx d =>
      let t := ListCommonPrefixesV2 r p c b pfx d; (.stringListRes t.1, t.2)
  | .listObjectsV2 c b pfx => let t := ListObjectsV2 r p c b pfx; (.stringListRes t.1, t.2)
  | .deleteObjectV2 c b k => let t := DeleteObjectV2 r p c b k; (.unitRes t.1, t.2)
  | .createSignedURLV2 c b k ttl =>
      let t := CreateSignedURLV2 r p c b k ttl; (.stringRes t.1, t.2)

/-- What the dispensed client itself answers for a given operation: the
operation's method applied to exactly the operation's arguments.  This is the
expected value of a pure pass-through. -/
def delegateResponse (d : ObjectStoreClient) : OpCall → OpResult
  | .putObject b k body => .unitRes (d.putObjectRes b k body)
  | .objectExists b k => .boolRes (d.objectExistsRes b k)
  | .getObject b k => .readCloserRes (d.getObjectRes b k)
  | .listCommonPrefixes b pfx dl => .stringListRes (d.listCommonPrefixesRes b pfx dl)
  | .listObjects b pfx => .stringListRes (d.listObjectsRes b pfx)
  | .deleteObject b k => .unitRes (d.deleteObjectRes b k)
  | .createSignedURL b k ttl => .stringRes (d.createSignedURLRes b k ttl)
  | .putObjectV2 c b k body => .unitRes (d.putObjectV2Res c b k body)
  | .objectExistsV2 c b k => .boolRes (d.objectExistsV2Res c b k)
  | .getObjectV2 c b k => .readCloserRes (d.getObjectV2Res c b k)
  | .listCommonPrefixesV2 c b pfx dl => .stringListRes (d.listCommonPrefixesV2Res c b pfx dl)
  | .listObjectsV2 c b pfx => .stringListRes (d.listObjectsV2Res c b pfx)
  | .deleteObjectV2 c b k => .unitRes (d.deleteObjectV2Res c b k)
  | .createSignedURLV2 c b k ttl => .stringRes (d.createSignedURLV2Res c b k ttl)

/-- The result an operation surfaces when it propagates error `e` (each Go
method returns its zero value alongside the error). -/
def errOpResult : OpCall → GoError → OpResult
  | .putObject .., e => .unitRes (.error e)
  | .objectExists .., e => .boolRes (.error e)
  | .getObject .., e => .readCloserRes (.error e)
  | .listCommonPrefixes .., e => .stringListRes (.error e)
  | .listObjects .., e => .stringListRes (.error e)
  | .deleteObject .., e => .unitRes (.error e)
  | .createSignedURL .., e => .stringRes (.error e)
  | .putObjectV2 .., e => .unitRes (.error e)
  | .objectExistsV2 .., e => .boolRes (.error e)
  | .getObjectV2 .., e => .readCloserRes (.error e)
  | .listCommonPrefixesV2 .., e => .stringListRes (.error e)
  | .listObjectsV2 .., e => .stringListRes (.error e)
  | .deleteObjectV2 .., e => .unitRes (.error e)
  | .createSignedURLV2 .., e => .stringRes (.error e)

/-! ### Sequences of interleaved calls on one proxy

A `Step` is one call on the proxy, together with the behaviour the shared
plugin process exhibits at that moment (the process can change between calls,
e.g. because it was restarted).  Only `Init`/`InitV2` write the proxy state;
the other operations leave it untouched, exactly as in the source, where only
`Init` assigns to `r.config`. -/

/-- One call of a sequence: an `Init`, an `InitV2`, or a capability
operation, with the process behaviour at call time. -/
inductive Step : Type where
  | initStep (p : RestartableProcess) (cfg : GoMap)
  | initV2Step (p : RestartableProcess) (c : Ctx) (cfg : GoMap)
  | opStep (p : RestartableProcess) (o : OpCall)

/-- Observation of one step: the result when the step was an `Init`/`InitV2`,
and the trace of collaborator calls the step made. -/
structure StepOut where
  initResult : Option (Except GoError Unit)
  trace : List Event

/-- Execute one step against the current proxy state. -/
def runStep (r : restartableObjectStore) : Step → restartableObjectStore × StepOut
  | .initStep p cfg =>
      let t := Init r p cfg
      (t.2.1, { initResult := some t.1, trace := t.2.2 })
  | .initV2Step p c cfg =>
      let t := InitV2 r p c cfg
      (t.2.1, { initResult := some t.1, trace := t.2.2 })
  | .opStep p o =>
      (r, { initResult := none, trace := (execOp r p o).2 })

/-- Execute a sequence of interleaved calls, threading the proxy state. -/
def runSteps (r : restartableObjectStore) : List Step → restartableObjectStore × List StepOut
  | [] => (r, [])
  | s :: rest =>
      let t := runStep r s
      let u := runSteps t.1 rest
      (u.1, t.2 :: u.2)

/-! ### The once-only e2e test client (`test/e2e/util/k8s/common.go`)

`NewTestClient` guards `InitTestClient` with a package-level `sync.Once` and
package-level `testClient`/`err` variables.  `InitTestClient`'s own body talks
to external collaborators (config loading, client factories), so it is an
oracle: each prospective call has an outcome the environment would produce. -/

/-- The `TestClient` struct; the three API clients are opaque handles. -/
structure TestClient where
  kubebuilder : Nat
  clientGo : Nat
  dynamicFactory : Nat
deriving DecidableEq, Repr

/-- A `(TestClient, error)` pair as returned by `InitTestClient` (`none` is a
nil error). -/
abbrev InitOutcome := TestClient × Option GoError

/-- The package-level state: the `sync.Once` flag and the cached
`testClient`/`err` variables. -/
structure onceState where
  done : Bool
  testClient : TestClient
  errVal : Option GoError
deriving DecidableEq, Repr

/-- The zero values of the package-level variables before any call. -/
def zeroOnceState : onceState :=
  { done := false, testClient := { kubebuilder := 0, clientGo := 0, dynamicFactory := 0 },
    errVal := none }

/-- `NewTestClient`: runs `InitTestClient` under `once.Do` (its prospective
outcome is the oracle argument) and returns the cached pair.  The `Bool`
records whether `InitTestClient` actually ran during this call. -/
def NewTestClient (s : onceState) (outcome : InitOutcome) :
    InitOutcome × onceState × Bool :=
  if s.done then ((s.testClient, s.errVal), s, false)
  else (outcome, { done := true, testClient := outcome.1, errVal := outcome.2 }, true)

/-- Execute a sequence of `NewTestClient` calls; `outcomes[i]` is what
`InitTestClient` would return if it ran during call `i`.  Returns the final
state and, per call, the returned pair plus whether `InitTestClient` ran. -/
def runNewTestClientCalls (s : onceState) :
    List InitOutcome → onceState × List (InitOutcome × Bool)
  | [] => (s, [])
  | o :: rest =>
      let t := NewTestClient s o
      let u := runNewTestClientCalls t.2.1 rest
      (u.1, (t.1, t.2.2) :: u.2)

/-! ### Supervisor restart collapse

Modelled from the spec: the Restartable Process Supervisor (its `ensureLive`
restart protocol, spec sections 4.3 and 5) is not among the provided source
files; only its interface is visible from the proxy.  Following the spec's
words: `ensureLive` returns at once if the process is alive; otherwise the
caller acquires an exclusive restart lock — a caller finding the lock held
blocks until it is released and then returns, satisfied by the other caller's
restart — and the lock holder terminates the dead handle, launches a new
process, publishes it as alive, and releases the lock.  Threads are
interchangeable, so the global state tracks how many callers sit at each
point of `ensureLive`; a schedule chooses which point advances next, which
covers every interleaving of `n` concurrent callers. -/

/-- Which group of callers a scheduling step advances: one about to check
liveness, the one holding the restart lock, or one blocked on the lock. -/
inductive Choice : Type where
  | start
  | restarting
  | waiting
deriving DecidableEq, Repr

/-- Global supervisor state for `n` concurrent `ensureLive` callers: caller
counts per program point, process liveness, the restart lock, and how many
times `launch()` ran. -/
structure SupervisorState where
  nStart : Nat
  nRestarting : Nat
  nWaiting : Nat
  nDone : Nat
  alive : Bool
  lockHeld : Bool
  launches : Nat
deriving DecidableEq, Repr

/-- Initial state: `n` callers about to enter `ensureLive` against a single
dead process, lock free, no launches yet. -/
def initSupervisorState (n : Nat) : SupervisorState :=
  { nStart := n, nRestarting := 0, nWaiting := 0, nDone := 0,
    alive := false, lockHeld := false, launches := 0 }

/-- One atomic step of the modelled protocol; an inapplicable choice (no
caller at that point, or a waiter while the lock is held) leaves the state
unchanged. -/
def supervisorStep (s : SupervisorState) : Choice → SupervisorState
  | .start =>
      if s.nStart = 0 then s
      else if s.alive then
        { s with nStart := s.nStart - 1, nDone := s.nDone + 1 }
      else if s.lockHeld then
        { s with nStart := s.nStart - 1, nWaiting := s.nWaiting + 1 }
      else
        { s with nStart := s.nStart - 1, nRestarting := s.nRestarting + 1, lockHeld := true }
  | .restarting =>
      if s.nRestarting = 0 then s
      else
        { s with nRestarting := s.nRestarting - 1, nDone := s.nDone + 1,
                 alive := true, lockHeld := false, launches := s.launches + 1 }
  | .waiting =>
      if s.nWaiting = 0 ∨ s.lockHeld then s
      else
        { s with nWaiting := s.nWaiting - 1, nDone := s.nDone + 1 }

/-- Run a schedule of atomic steps. -/
def supervisorRun (s : SupervisorState) : List Choice → SupervisorState
  | [] => s
  | c :: cs => supervisorRun (supervisorStep s c) cs

/-- Every caller has returned from `ensureLive`. -/
def allDone (s : SupervisorState) : Prop :=
  s.nStart = 0 ∧ s.nRestarting = 0 ∧ s.nWaiting = 0

instance (s : SupervisorState) : Decidable (allDone s) := by
  unfold allDone; infer_instance

/-- Inductive invariant of the modelled restart protocol. -/
def supervisorInv (n : Nat) (s : SupervisorState) : Prop :=
  s.nStart + s.nRestarting + s.nWaiting + s.nDone = n ∧
  (s.lockHeld = true ↔ s.nRestarting = 1) ∧
  s.nRestarting ≤ 1 ∧
  (s.alive = true → s.launches = 1 ∧ s.nRestarting = 0) ∧
  (s.alive = false → s.launches = 0) ∧
  (0 < s.nWaiting → s.lockHeld = true ∨ s.alive = true) ∧
  (0 < s.nDone → s.alive = true)

/-! ### Concrete data used by witnesses and counterexamples -/

/-- A dispensed object-store client whose every method succeeds, with
distinguishable canned results. -/
def okClient : ObjectStoreClient :=
  { id := 7
    initRes := fun _ => .ok ()
    putObjectRes := fun _ _ _ => .ok ()
    objectExistsRes := fun _ _ => .ok true
    getObjectRes := fun _ _ => .ok 11
    listCommonPrefixesRes := fun _ _ _ => .ok ["p"]
    listObjectsRes := fun _ _ => .ok ["o"]
    deleteObjectRes := fun _ _ => .ok ()
    createSignedURLRes := fun _ _ _ => .ok "url"
    putObjectV2Res := fun _ _ _ _ => .ok ()
    objectExistsV2Res := fun _ _ _ => .ok false
    getObjectV2Res := fun _ _ _ => .ok 12
    listCommonPrefixesV2Res := fun _ _ _ _ => .ok ["p2"]
    listObjectsV2Res := fun _ _ _ => .ok ["o2"]
    deleteObjectV2Res := fun _ _ _ => .ok ()
    createSignedURLV2Res := fun _ _ _ _ => .ok "url2" }

/-- A client whose `Init` fails. -/
def initFailingClient : ObjectStoreClient :=
  { okClient with id := 8, initRes := fun _ => .error (.msg "init failed") }

/-- A process whose lookups dispense `okClient` and whose reset succeeds. -/
def okProcess : RestartableProcess :=
  { resetResult := .ok (), getByKindAndName := fun _ => .ok (.objectStore okClient) }

/-- A process whose `resetIfNeeded` fails. -/
def resetFailingProcess : RestartableProcess :=
  { resetResult := .error (.msg "restart failed"),
    getByKindAndName := fun _ => .ok (.objectStore okClient) }

/-- A process whose registry lookup fails. -/
def lookupFailingProcess : RestartableProcess :=
  { resetResult := .ok (), getByKindAndName := fun _ => .error (.msg "not registered") }

/-- A process that dispenses `initFailingClient`. -/
def initFailingProcess : RestartableProcess :=
  { resetResult := .ok (), getByKindAndName := fun _ => .ok (.objectStore initFailingClient) }

/-- A freshly constructed proxy for implementation name `aws`. -/
def freshProxy : restartableObjectStore := newRestartableObjectStoreV2 "aws"

/-- A sample non-nil configuration. -/
def sampleConfig : GoMap := some [("bucket", "b1")]

/-! ### Helper lemmas -/

/-- With a non-nil stored config, `Init` rejects immediately: no state change,
no collaborator calls. -/
theorem Init_of_some (r : restartableObjectStore) (p : RestartableProcess)
    (cfg : GoMap) (m : List (String × String)) (h : r.config = some m) :
    Init r p cfg = (.error alreadyInitializedError, r, []) := by
  simp [Init, h]

/-- A successful `Init` came through the lookup branch: some client was
dispensed, the config was stored, and `init(config)` was forwarded. -/
theorem Init_ok (r : restartableObjectStore) (p : RestartableProcess) (cfg : GoMap)
    (h : (Init r p cfg).1 = .ok ()) :
    ∃ d, p.getByKindAndName r.key = .ok (.objectStore d) ∧
      Init r p cfg =
        (.ok (), { r with config := cfg },
         [.getByKindAndName r.key, .call d.id (.initCall cfg)]) := by
  cases hc : r.config with
  | some m => rw [Init_of_some r p cfg m hc] at h; exact absurd h (by simp)
  | none =>
    cases hl : p.getByKindAndName r.key with
    | error e => simp [Init, getObjectStore, hc, hl] at h
    | ok dis =>
      cases dis with
      | other t => simp [Init, getObjectStore, hc, hl] at h
      | objectStore d =>
        refine ⟨d, rfl, ?_⟩
        simp [Init, getObjectStore, init, hc, hl] at h ⊢
        exact h

/-- Stepping a proxy whose stored config is non-nil leaves the state alone,
and any `Init`/`InitV2` step reports `already initialized` with an empty
trace. -/
theorem runStep_of_some (r : restartableObjectStore) (s : Step)
    (m : List (String × String)) (h : r.config = some m) :
    (runStep r s).1 = r ∧
    ∀ res, (runStep r s).2.initResult = some res →
      res = .error alreadyInitializedError ∧ (runStep r s).2.trace = [] := by
  cases s with
  | initStep p cfg => simp [runStep, Init_of_some r p cfg m h]
  | initV2Step p c cfg => simp [runStep, InitV2, Init_of_some r p cfg m h]
  | opStep p o => simp [runStep]

/-- Once a non-nil config is stored, it persists through every sequence of
calls, and every `Init`/`InitV2` in the sequence fails with
`already initialized` without making any collaborator call. -/
theorem runSteps_config_inv (m : List (String × String)) :
    ∀ (steps : List Step) (r : restartableObjectStore), r.config = some m →
      (runSteps r steps).1.config = some m ∧
      ∀ out ∈ (runSteps r steps).2, ∀ res, out.initResult = some res →
        res = .error alreadyInitializedError ∧ out.trace = [] := by
  intro steps
  induction steps with
  | nil => intro r h; simpa [runSteps] using h
  | cons s rest ih =>
    intro r h
    obtain ⟨hstate, hout⟩ := runStep_of_some r s m h
    have hcfg : (runStep r s).1.config = some m := by rw [hstate]; exact h
    obtain ⟨ih1, ih2⟩ := ih (runStep r s).1 hcfg
    refine ⟨by simpa [runSteps] using ih1, ?_⟩
    intro out hmem res hres
    simp only [runSteps, List.mem_cons] at hmem
    rcases hmem with h0 | hrest
    · subst h0; exact hout res hres
    · exact ih2 out hrest res hres

/-- On a success path, `getDelegate` is the reset followed by the lookup. -/
theorem getDelegate_ok (r : restartableObjectStore) (p : RestartableProcess)
    (d : ObjectStoreClient) (hreset : p.resetResult = .ok ())
    (hlook : p.getByKindAndName r.key = .ok (.objectStore d)) :
    getDelegate r p = (.ok d, [.resetIfNeeded, .getByKindAndName r.key]) := by
  simp [getDelegate, getObjectStore, hreset, hlook]

/-- `getDelegate` itself never invokes a plugin operation: its trace holds no
`call` event. -/
theorem getDelegate_no_call (r : restartableObjectStore) (p : RestartableProcess) :
    ∀ ev ∈ (getDelegate r p).2, ∀ i pl, ev ≠ Event.call i pl := by
  cases hr : p.resetResult with
  | error e => simp [getDelegate, hr]
  | ok u =>
    cases hl : p.getByKindAndName r.key with
    | error e => simp [getDelegate, getObjectStore, hr, hl]
    | ok dis => cases dis <;> simp [getDelegate, getObjectStore, hr, hl]

/-- When `getDelegate` fails, every operation surfaces exactly that error and
its trace is `getDelegate`'s trace. -/
theorem execOp_of_getDelegate_error (r : restartableObjectStore)
    (p : RestartableProcess) (e : GoError) (tr : List Event)
    (hgd : getDelegate r p = (.error e, tr)) :
    ∀ o, execOp r p o = (errOpResult o e, tr) := by
  intro o
  cases o <;>
    simp [execOp, PutObject, ObjectExists, GetObject, ListCommonPrefixes, ListObjects,
      DeleteObject, CreateSignedURL, PutObjectV2, ObjectExistsV2, GetObjectV2,
      ListCommonPrefixesV2, ListObjectsV2, DeleteObjectV2, CreateSignedURLV2,
      hgd, errOpResult]

/-- After a completed `NewTestClient` call, every further call returns the
cached pair and never reruns `InitTestClient`. -/
theorem runNewTestClientCalls_done (s : onceState) (hd : s.done = true) :
    ∀ outcomes, runNewTestClientCalls s outcomes =
      (s, outcomes.map fun _ => ((s.testClient, s.errVal), false)) := by
  intro outcomes
  induction outcomes with
  | nil => simp [runNewTestClientCalls]
  | cons o rest ih => simp [runNewTestClientCalls, NewTestClient, hd, ih]

/-- The modelled restart protocol's invariant holds initially. -/
theorem supervisorInv_init (n : Nat) : supervisorInv n (initSupervisorState n) := by
  simp [supervisorInv, initSupervisorState]

/-- The modelled restart protocol's invariant is preserved by every step. -/
theorem supervisorInv_step (n : Nat) (s : SupervisorState) (c : Choice)
    (h : supervisorInv n s) : supervisorInv n (supervisorStep s c) := by
  obtain ⟨h1, h2, h3, h4, h5, h6, h7⟩ := h
  cases c <;> cases hA : s.alive <;> cases hL : s.lockHeld <;>
    simp only [supervisorStep] <;> split_ifs <;>
    simp_all [supervisorInv] <;> omega

/-- The invariant holds after running any schedule. -/
theorem supervisorInv_run (n : Nat) (sched : List Choice) (s : SupervisorState)
    (h : supervisorInv n s) : supervisorInv n (supervisorRun s sched) := by
  induction sched generalizing s with
  | nil => exact h
  | cons c cs ih => exact ih _ (supervisorInv_step n s c h)

/-! ### Claim theorems -/

/-- Claim C1 (amended to a first accepted config that is non-nil): after a
first successful `Init` with a non-nil config, every later `Init`/`InitV2` in
any sequence of interleaved calls fails with `AlreadyInitializedError`,
forwards nothing to any client, and the stored configuration stays equal to
the first accepted config throughout the sequence. -/
theorem second_init_always_rejected (r : restartableObjectStore)
    (p : RestartableProcess) (m : List (String × String))
    (h : (Init r p (some m)).1 = .ok ()) :
    ((Init r p (some m)).2.1).config = some m ∧
    ∀ steps : List Step,
      (runSteps (Init r p (some m)).2.1 steps).1.config = some m ∧
      ∀ out ∈ (runSteps (Init r p (some m)).2.1 steps).2, ∀ res,
        out.initResult = some res →
          res = .error alreadyInitializedError ∧ out.trace = [] := by
  obtain ⟨d, hl, hEq⟩ := Init_ok r p (some m) h
  have hcfg : ((Init r p (some m)).2.1).config = some m := by rw [hEq]
  exact ⟨hcfg, fun steps => runSteps_config_inv m steps _ hcfg⟩

/-- Witness for C1: a concrete first `Init` with config `{bucket: b1}`
succeeds, and after a further `Init` attempt the stored config is still
`{bucket: b1}`. -/
theorem second_init_always_rejected_witness :
    (Init freshProxy okProcess (some [("bucket", "b1")])).1 = .ok () ∧
    (runSteps (Init freshProxy okProcess (some [("bucket", "b1")])).2.1
        [.initStep okProcess none]).1.config = some [("bucket", "b1")] :=
  ⟨rfl,
    ((second_init_always_rejected freshProxy okProcess [("bucket", "b1")] rfl).2
      [.initStep okProcess none]).1⟩

/-- Counterexample to C1 as frozen: when the first successful `Init` is made
with a nil config, a second `Init` also succeeds, so a second successful
`Init` is not impossible. -/
theorem second_init_possible_after_nil_init :
    (Init freshProxy okProcess none).1 = .ok () ∧
    (Init (Init freshProxy okProcess none).2.1 okProcess sampleConfig).1 = .ok () :=
  ⟨rfl, rfl⟩

/-- Claim C2 (amended): `reinitialize(client)` forwards `init(storedConfig)`
to the freshly dispensed client in every case in which the client satisfies
the ObjectStore type assertion — including when no configuration was ever
stored, in which case the nil config is forwarded rather than failing; the
only failure is a dispensed value that is not an ObjectStore. -/
theorem reinitialize_forwards_stored_config (r : restartableObjectStore) :
    (∀ d : ObjectStoreClient,
        reinitialize r (.objectStore d) =
          (d.initRes r.config, [.call d.id (.initCall r.config)])) ∧
    (∀ t : String,
        reinitialize r (.other t) =
          (.error (.msg (t ++ " is not a ObjectStore!")), [])) :=
  ⟨fun _ => rfl, fun _ => rfl⟩

/-- Counterexample to C2 as frozen: a proxy that was never initialized
(stored config nil) does not make `reinitialize` fail; the call succeeds and
forwards `init(nil)` to the dispensed client. -/
theorem reinitialize_without_stored_config_succeeds :
    freshProxy.config = none ∧
    reinitialize freshProxy (.objectStore okClient) =
      (.ok (), [.call 7 (.initCall none)]) :=
  ⟨rfl, rfl⟩

/-- Claim C3: every capability operation other than `Init`/`InitV2` first
runs `resetIfNeeded`, then looks up the client for the proxy's key, then
forwards its arguments unmodified to the delegate; the delegate's result is
returned unmodified and the delegate is called exactly once (no retry). -/
theorem op_forwards_unmodified (r : restartableObjectStore)
    (p : RestartableProcess) (d : ObjectStoreClient) (o : OpCall)
    (hreset : p.resetResult = .ok ())
    (hlook : p.getByKindAndName r.key = .ok (.objectStore d)) :
    execOp r p o =
      (delegateResponse d o,
       [.resetIfNeeded, .getByKindAndName r.key, .call d.id (.opCall o)]) := by
  have hgd := getDelegate_ok r p d hreset hlook
  cases o <;>
    simp [execOp, PutObject, ObjectExists, GetObject, ListCommonPrefixes, ListObjects,
      DeleteObject, CreateSignedURL, PutObjectV2, ObjectExistsV2, GetObjectV2,
      ListCommonPrefixesV2, ListObjectsV2, DeleteObjectV2, CreateSignedURLV2,
      hgd, delegateResponse]

/-- Witness for C3: a concrete `PutObject` against a live process forwards
its three arguments and returns the delegate's answer. -/
theorem op_forwards_unmodified_witness :
    okProcess.resetResult = .ok () ∧
    okProcess.getByKindAndName freshProxy.key = .ok (.objectStore okClient) ∧
    execOp freshProxy okProcess (.putObject "b1" "k1" 3) =
      (delegateResponse okClient (.putObject "b1" "k1" 3),
       [.resetIfNeeded, .getByKindAndName freshProxy.key,
        .call okClient.id (.opCall (.putObject "b1" "k1" 3))]) :=
  ⟨rfl, rfl,
    op_forwards_unmodified freshProxy okProcess okClient (.putObject "b1" "k1" 3) rfl rfl⟩

/-- Claim C4: when the liveness/restart step or the client lookup fails, the
operation returns that error and no plugin operation is ever invoked on any
client (the trace holds no call event). -/
theorem op_failure_never_reaches_delegate (r : restartableObjectStore)
    (p : RestartableProcess) (o : OpCall) (e : GoError)
    (h : (getDelegate r p).1 = .error e) :
    (execOp r p o).1 = errOpResult o e ∧
    ∀ ev ∈ (execOp r p o).2, ∀ i pl, ev ≠ Event.call i pl := by
  obtain ⟨tr, hgd⟩ : ∃ tr, getDelegate r p = (.error e, tr) :=
    ⟨(getDelegate r p).2, by rw [← h]⟩
  have hnc := getDelegate_no_call r p
  rw [hgd] at hnc
  rw [execOp_of_getDelegate_error r p e tr hgd o]
  exact ⟨rfl, hnc⟩

/-- Witness for C4: with a failing `resetIfNeeded`, `GetObject` surfaces the
restart error and the trace is the lone reset attempt. -/
theorem op_failure_never_reaches_delegate_witness :
    (getDelegate freshProxy resetFailingProcess).1 = .error (.msg "restart failed") ∧
    ((execOp freshProxy resetFailingProcess (.getObject "b1" "k1")).1 =
        errOpResult (.getObject "b1" "k1") (.msg "restart failed") ∧
      ∀ ev ∈ (execOp freshProxy resetFailingProcess (.getObject "b1" "k1")).2,
        ∀ i pl, ev ≠ Event.call i pl) :=
  ⟨rfl,
    op_failure_never_reaches_delegate freshProxy resetFailingProcess
      (.getObject "b1" "k1") (.msg "restart failed") rfl⟩

/-- Claim C5: `InitV2(ctx, config)` is identical to `Init(config)` — same
result, same stored configuration, same trace — for every context. -/
theorem initV2_equals_init (r : restartableObjectStore) (p : RestartableProcess)
    (c : Ctx) (cfg : GoMap) : InitV2 r p c cfg = Init r p cfg := rfl

/-- Claim C6: on a not-yet-initialized proxy, `Init` never triggers the
restart path — its trace holds no `resetIfNeeded` and begins with the
registry lookup — and on a successful lookup it stores the config and
forwards `init(config)` to the dispensed client. -/
theorem init_never_restarts (r : restartableObjectStore) (p : RestartableProcess)
    (cfg : GoMap) (h : r.config = none) :
    Event.resetIfNeeded ∉ (Init r p cfg).2.2 ∧
    (Init r p cfg).2.2.head? = some (.getByKindAndName r.key) ∧
    (∀ d, p.getByKindAndName r.key = .ok (.objectStore d) →
      Init r p cfg =
        (d.initRes cfg, { r with config := cfg },
         [.getByKindAndName r.key, .call d.id (.initCall cfg)])) := by
  cases hl : p.getByKindAndName r.key with
  | error e =>
    refine ⟨?_, ?_, ?_⟩ <;> simp [Init, getObjectStore, h, hl]
  | ok dis =>
    cases dis with
    | objectStore d0 =>
      refine ⟨?_, ?_, ?_⟩
      · simp [Init, getObjectStore, init, h, hl]
      · simp [Init, getObjectStore, init, h, hl]
      · intro d hd
        injection hd with hd2
        injection hd2 with hd3
        subst hd3
        simp [Init, getObjectStore, init, h, hl]
    | other t =>
      refine ⟨?_, ?_, ?_⟩ <;> simp [Init, getObjectStore, h, hl]

/-- Witness for C6: on the fresh proxy, `Init` with a live process stores the
config and forwards `init` to the dispensed client, with exactly a lookup and
a call in the trace. -/
theorem init_never_restarts_witness :
    freshProxy.config = none ∧
    Init freshProxy okProcess sampleConfig =
      (okClient.initRes sampleConfig, { freshProxy with config := sampleConfig },
       [.getByKindAndName freshProxy.key, .call okClient.id (.initCall sampleConfig)]) :=
  ⟨rfl, (init_never_restarts freshProxy okProcess sampleConfig rfl).2.2 okClient rfl⟩

/-- Claim C7 (spec model): for every number of concurrent `ensureLive`
callers against a single dead process and every interleaving that lets every
caller return, `launch()` runs exactly once. -/
theorem concurrent_ensure_live_single_launch (n : Nat) (sched : List Choice)
    (h1 : 0 < n)
    (h2 : allDone (supervisorRun (initSupervisorState n) sched)) :
    (supervisorRun (initSupervisorState n) sched).launches = 1 := by
  obtain ⟨g1, g2, g3, g4, g5, g6, g7⟩ :=
    supervisorInv_run n sched _ (supervisorInv_init n)
  obtain ⟨d1, d2, d3⟩ := h2
  have hd : 0 < (supervisorRun (initSupervisorState n) sched).nDone := by omega
  exact (g4 (g7 hd)).1

/-- Witness for C7: two callers race on a dead process; one restarts, the
other then finds it alive; exactly one launch happened. -/
theorem concurrent_ensure_live_single_launch_witness :
    0 < 2 ∧
    allDone (supervisorRun (initSupervisorState 2) [.start, .restarting, .start]) ∧
    (supervisorRun (initSupervisorState 2) [.start, .restarting, .start]).launches = 1 :=
  ⟨by decide, by decide,
    concurrent_ensure_live_single_launch 2 [.start, .restarting, .start]
      (by decide) (by decide)⟩

/-- Claim C8: the one-shot guard is keyed on the stored config being non-nil:
a first successful `Init` with a nil config leaves the stored config nil, and
a subsequent `Init` succeeds as well (the `AlreadyInitializedError` branch is
not taken). -/
theorem nil_config_defeats_one_shot_guard (r : restartableObjectStore)
    (p : RestartableProcess) (h1 : r.config = none)
    (h2 : (Init r p none).1 = .ok ()) :
    ((Init r p none).2.1).config = none ∧
    (Init (Init r p none).2.1 p none).1 = .ok () := by
  obtain ⟨d, hl, hEq⟩ := Init_ok r p none h2
  have hr : (Init r p none).2.1 = r := by
    rw [hEq]
    cases r with
    | mk k cfg =>
      have hcfg : cfg = none := h1
      subst hcfg
      rfl
  rw [hr]
  exact ⟨h1, h2⟩

/-- Witness for C8: the fresh proxy accepts `Init(nil)` and then accepts a
second `Init(nil)` too. -/
theorem nil_config_defeats_one_shot_guard_witness :
    freshProxy.config = none ∧ (Init freshProxy okProcess none).1 = .ok () ∧
    (((Init freshProxy okProcess none).2.1).config = none ∧
      (Init (Init freshProxy okProcess none).2.1 okProcess none).1 = .ok ()) :=
  ⟨rfl, rfl, nil_config_defeats_one_shot_guard freshProxy okProcess rfl rfl⟩

/-- Claim C9: `Init` is not atomic in its forwarding step: a failed lookup
returns the error with the config still nil (retryable), but when the lookup
succeeds and the forwarded `init(config)` fails, the config has already been
stored, so — for a non-nil config — every subsequent `Init` fails with
`AlreadyInitializedError` although no successful initialization occurred. -/
theorem init_stores_config_before_forwarding (r : restartableObjectStore)
    (p : RestartableProcess) (cfg : GoMap) (h : r.config = none) :
    (∀ e, p.getByKindAndName r.key = .error e →
        Init r p cfg = (.error e, r, [.getByKindAndName r.key])) ∧
    (∀ d e, p.getByKindAndName r.key = .ok (.objectStore d) →
        d.initRes cfg = .error e →
        (Init r p cfg).1 = .error e ∧
        ((Init r p cfg).2.1).config = cfg ∧
        (∀ m, cfg = some m → ∀ p2 cfg2,
          Init (Init r p cfg).2.1 p2 cfg2 =
            (.error alreadyInitializedError, (Init r p cfg).2.1, []))) := by
  constructor
  · intro e he
    simp [Init, getObjectStore, h, he]
  · intro d e hd he
    have hEq : Init r p cfg =
        (.error e, { r with config := cfg },
         [.getByKindAndName r.key, .call d.id (.initCall cfg)]) := by
      simp [Init, getObjectStore, init, h, hd, he]
    refine ⟨by rw [hEq], by rw [hEq], ?_⟩
    intro m hm p2 cfg2
    have hc : ((Init r p cfg).2.1).config = some m := by
      rw [hEq]; exact hm
    exact Init_of_some _ p2 cfg2 m hc

/-- Witness for C9: a failed delegate `init` still latches the config, and a
retry then reports `already initialized`. -/
theorem init_stores_config_before_forwarding_witness :
    freshProxy.config = none ∧
    Init (Init freshProxy initFailingProcess sampleConfig).2.1 okProcess sampleConfig =
      (.error alreadyInitializedError,
       (Init freshProxy initFailingProcess sampleConfig).2.1, []) :=
  ⟨rfl,
    (((init_stores_config_before_forwarding freshProxy initFailingProcess
          sampleConfig rfl).2 initFailingClient (.msg "init failed") rfl rfl).2.2
      [("bucket", "b1")] rfl okProcess sampleConfig)⟩

/-- Claim C10: `NewTestClient` runs `InitTestClient` only on the first call,
and every call returns the pair computed by that first run — a failed first
initialization is never retried and its error is returned to all callers. -/
theorem new_test_client_once (outcomes : List InitOutcome) :
    (runNewTestClientCalls zeroOnceState outcomes).2 =
      match outcomes with
      | [] => []
      | o :: rest => (o, true) :: rest.map fun _ => (o, false) := by
  cases outcomes with
  | nil => rfl
  | cons o rest =>
    have hs : NewTestClient zeroOnceState o =
        (o, { done := true, testClient := o.1, errVal := o.2 }, true) := by
      simp [NewTestClient, zeroOnceState]
    have hrun := runNewTestClientCalls_done
      { done := true, testClient := o.1, errVal := o.2 } rfl rest
    simp [runNewTestClientCalls, hs, hrun]
